import Mathlib

/-!
Verification of the AI-Daily rendering pipeline and orchestrator.

Shallow embedding of `src/simple_generator.py`, `src/main.py` and the
orchestration boundaries they use.  Python strings are modelled by `String`
(Python indexes and measures strings by code point, as Lean does), Python
dictionaries holding news records by a structure of `Option` fields
(`none` = key absent, so `dict.get(k, default)` becomes `Option.getD`),
and the filesystem by a map from path to content.
-/

namespace AIDaily

/-- A news record from the upstream API, as consumed by the renderer.
Each field may be absent (`none`), matching `dict.get` with a default. -/
structure NewsItem where
  title : Option String
  description : Option String
  url : Option String
  source : Option String
  ctime : Option String
  deriving DecidableEq

/-- `charsBeginWith hay needle = true` iff `needle` is a prefix of `hay`. -/
def charsBeginWith : List Char → List Char → Bool
  | _, [] => true
  | [], _ :: _ => false
  | a :: as, b :: bs => a == b && charsBeginWith as bs

/-- `charsContain hay needle = true` iff `needle` occurs contiguously in `hay`. -/
def charsContain : List Char → List Char → Bool
  | _, [] => true
  | [], _ :: _ => false
  | a :: as, needle => charsBeginWith (a :: as) needle || charsContain as needle

/-- Python's substring test `needle in haystack`. -/
def strContains (haystack needle : String) : Bool :=
  charsContain haystack.toList needle.toList

/-- The fixed ordered table of `(substring, tag-label)` pairs from
`extract_tags_from_title` (a Python dict, iterated in insertion order). -/
def tagTable : List (String × String) :=
  [("OpenAI", "OpenAI"), ("ChatGPT", "ChatGPT"), ("GPT", "GPT"),
   ("Google", "Google"), ("Gemini", "Gemini"), ("Anthropic", "Anthropic"),
   ("Claude", "Claude"), ("Microsoft", "Microsoft"), ("Meta", "Meta"),
   ("LLaMA", "LLaMA"), ("DeepSeek", "DeepSeek"), ("百度", "百度"),
   ("阿里", "阿里"), ("腾讯", "腾讯"), ("字节", "字节"), ("AI", "AI"),
   ("大模型", "大模型"), ("机器人", "机器人"), ("自动驾驶", "自动驾驶"),
   ("芯片", "芯片"), ("算法", "算法"), ("模型", "模型")]

/-- The `for keyword, tag in keywords.items()` loop of
`extract_tags_from_title`: append the label of each matching pair,
breaking as soon as 4 labels are collected. -/
def collectTags (title : String) : List (String × String) → List String → List String
  | [], tags => tags
  | (keyword, tag) :: rest, tags =>
    if strContains title keyword then
      let tags2 := tags ++ [tag]
      if 4 ≤ tags2.length then tags2 else collectTags title rest tags2
    else collectTags title rest tags

/-- `simple_generator.extract_tags_from_title`: scan the fixed table in
order, collect at most 4 matching labels, fall back to `["AI"]`. -/
def extract_tags_from_title (title : String) : List String :=
  let tags := collectTags title tagTable []
  if tags.isEmpty then ["AI"] else tags

/-- The fixed AI-domain vocabulary scanned by `extract_keywords`. -/
def keywordVocab : List String :=
  ["AI", "人工智能", "机器学习", "深度学习", "大模型", "科技", "算法"]

/-- Python `set.add`: the accumulator keeps one copy of each keyword
(insertion order fixes the iteration order of the embedded set). -/
def addKw (acc : List String) (kw : String) : List String :=
  if kw ∈ acc then acc else acc ++ [kw]

/-- The inner loop body of `extract_keywords`: `if keyword in title:
keywords.add(keyword)`. -/
def kwStep (title : String) (acc : List String) (keyword : String) : List String :=
  if strContains title keyword then addKw acc keyword else acc

/-- The outer loop body of `extract_keywords`: scan one news title
against the whole vocabulary. -/
def newsStep (acc : List String) (news : NewsItem) : List String :=
  keywordVocab.foldl (kwStep (news.title.getD "")) acc

/-- `simple_generator.extract_keywords`: scan the titles of the first 10
news records against `keywordVocab`, accumulate matches into a set, and
return at most 10 of them.  (CPython iterates a `set` in a
hash-dependent order; the embedding fixes insertion order, which is what
any two calls inside one interpreter process agree on.) -/
def extract_keywords (news_list : List NewsItem) : List String :=
  ((news_list.take 10).foldl newsStep []).take 10

/-- One `summary_items +=` line of `generate_summary`: title, separator,
and the description truncated to 100 characters with an ellipsis. -/
def summaryItemLine (news : NewsItem) : String :=
  let title := news.title.getD "无标题"
  let description0 := news.description.getD ""
  let description :=
    if 100 < description0.length then description0.take 100 ++ "..." else description0
  "                <li class=\"summary-item\">" ++ title ++ " - " ++ description ++ "</li>\n"

/-- Head of the summary-card template of `generate_summary`. -/
def sumHeader : String :=
  "            <section class=\"summary-card\">\n                <h2 class=\"section-title\">📌 今日核心摘要</h2>\n                <ul class=\"summary-list\">\n"

/-- Tail of the summary-card template of `generate_summary`. -/
def sumFooter : String :=
  "                </ul>\n            </section>\n\n"

/-- `simple_generator.generate_summary`: empty string on an empty list,
otherwise the summary card wrapping one line per news record. -/
def generate_summary (news_list : List NewsItem) : String :=
  if news_list.isEmpty then ""
  else sumHeader ++ String.join (news_list.map summaryItemLine) ++ sumFooter

/-- Modelled from the spec: `SITE_META` lives in `src/config.py`, which is
not part of the rendering sources; only its `description` entry is read by
the templates, and no property depends on its value. -/
def siteMetaDescription : String := "AI Daily - 每日 AI 资讯"

/-- Card-template chunk of `generate_news_cards`, up to the title. -/
def nc1 : String :=
  "                <article class=\"news-card\">\n                    <div class=\"news-card-header\">\n                        <h3 class=\"news-title\">"

/-- Card-template chunk between the title and the url. -/
def nc2 : String := "</h3>\n                        <a href=\""

/-- Card-template chunk between the url and the description. -/
def nc3 : String :=
  "\" class=\"item-link\" target=\"_blank\" rel=\"noopener\">详情</a>\n                    </div>\n                    <p class=\"news-summary\">"

/-- Card-template chunk between the description and the source. -/
def nc4 : String :=
  "</p>\n                    <div class=\"item-meta\">\n                        <span class=\"source\">来源: "

/-- Card-template chunk between the source and the timestamp. -/
def nc5 : String := "</span>\n                        <span class=\"time\">"

/-- Card-template chunk between the timestamp and the tag spans. -/
def nc6 : String :=
  "</span>\n                    </div>\n                    <div class=\"item-tags\">"

/-- Card-template chunk closing the card. -/
def nc7 : String := "</div>\n                </article>\n"

/-- One `card_html` value of `generate_news_cards`. -/
def cardHtml (news : NewsItem) : String :=
  let title := news.title.getD "无标题"
  let description := news.description.getD ""
  let url := news.url.getD "#"
  let source := news.source.getD "未知来源"
  let ctime := news.ctime.getD ""
  let tags := extract_tags_from_title title
  nc1 ++ title ++ nc2 ++ url ++ nc3 ++ description ++ nc4 ++ source ++ nc5 ++ ctime ++ nc6 ++
    String.intercalate " " (tags.map (fun tag => "<span class=\"tag\">#" ++ tag ++ "</span>")) ++
    nc7

/-- `simple_generator.generate_news_cards`: concatenation of one card per
news record (`cards_html += card_html`). -/
def generate_news_cards (news_list : List NewsItem) : String :=
  String.join (news_list.map cardHtml)

/-- Page-template chunk of `build_html`, up to the `<title>` date. -/
def bh1 : String :=
  "<!DOCTYPE html>\n<html lang=\"zh-CN\">\n<head>\n    <meta charset=\"UTF-8\">\n    <meta name=\"viewport\" content=\"width=device-width, initial-scale=1.0\">\n    <title>AI Daily · "

/-- Page-template chunk between the title date and the site description. -/
def bh2 : String := "</title>\n    <meta name=\"description\" content=\""

/-- Page-template chunk between the site description and the keyword meta. -/
def bh3 : String := "\">\n    <meta name=\"keywords\" content=\""

/-- Page-template chunk between the keyword meta and the date badge. -/
def bh4 : String :=
  "\">\n    <link rel=\"stylesheet\" href=\"css/styles.css\">\n</head>\n<body data-theme=\"blue\">\n    <div class=\"background-glow\"></div>\n    <div class=\"geometric-lines\"></div>\n\n    <div class=\"container\">\n        <header class=\"header\">\n            <div class=\"logo-icon\">🤖</div>\n            <h1>AI Daily</h1>\n            <div class=\"date-badge\">"

/-- Page-template chunk between the date badge and the summary section. -/
def bh5 : String :=
  "</div>\n        </header>\n\n        <main class=\"main-content\">\n            "

/-- Page-template chunk between the summary and the news count. -/
def bh6 : String :=
  "\n\n            <section class=\"category-section\">\n                <div class=\"category-header\">\n                    <span class=\"category-icon\">📰</span>\n                    <h2 class=\"category-title\">今日资讯</h2>\n                    <span class=\"category-count\">"

/-- Page-template chunk between the news count and the card grid. -/
def bh7 : String :=
  "</span>\n                </div>\n                <div class=\"news-grid\">\n                    "

/-- Page-template chunk between the card grid and the keyword hashtags. -/
def bh8 : String :=
  "\n                </div>\n            </section>\n\n            <section class=\"footer-section\">\n                <div class=\"keywords\">\n                    <strong>关键词：</strong>\n                    "

/-- Page-template chunk between the keyword hashtags and the timestamp. -/
def bh9 : String :=
  "\n                </div>\n                <div class=\"source-info\">\n                    <p>数据来源：天行数据 AI 资讯 API</p>\n                    <p>生成时间："

/-- Footer and inline-script part of the page-template chunk after the
timestamp, up to the closing of the document. -/
def bh10Script : String :=
  "</p>\n                </div>\n            </section>\n        </main>\n    </div>\n\n    <script>\n        // 添加平滑滚动效果\n        document.querySelectorAll(\x27a[href^=\"#\"]\x27).forEach(anchor => \x7b\n            anchor.addEventListener(\x27click\x27, function (e) \x7b\n                e.preventDefault();\n                const target = document.querySelector(this.getAttribute(\x27href\x27));\n                if (target) \x7b\n                    target.scrollIntoView(\x7b\n                        behavior: \x27smooth\x27,\n                        block: \x27start\x27\n                    \x7d);\n                \x7d\n            \x7d);\n        \x7d);\n    </script>\n"

/-- Page-template chunk after the timestamp (footer, inline script, and
the closing of the document). -/
def bh10 : String :=
  bh10Script ++ "</body>\n</html>"

/-- `simple_generator.build_html`.  The one impure input of the template,
`datetime.now().strftime(...)`, is passed in as `now_ts`; everything else
is a function of the arguments.  `target_date` is accepted but, as in the
source, never interpolated into the page. -/
def build_html (news_list : List NewsItem) (target_date date_str : String)
    (keywords : List String) (now_ts : String) : String :=
  let summary_html := generate_summary (news_list.take 5)
  let news_cards_html := generate_news_cards news_list
  let keywords_str :=
    if keywords.isEmpty then "AI, 人工智能, 科技" else String.intercalate ", " keywords
  let _ := target_date
  bh1 ++ date_str ++ bh2 ++ siteMetaDescription ++ bh3 ++ keywords_str ++ bh4 ++ date_str ++
    bh5 ++ summary_html ++ bh6 ++ toString news_list.length ++ bh7 ++ news_cards_html ++
    bh8 ++ String.intercalate " " (keywords.map (fun kw => "#" ++ kw)) ++ bh9 ++ now_ts ++ bh10

/-- The full stylesheet literal written by `generate_css`. -/
def cssContent : String :=
  "\n/* AI Daily Styles */\n* \x7b\n    margin: 0;\n    padding: 0;\n    box-sizing: border-box;\n\x7d\n\nbody \x7b\n    font-family: -apple-system, BlinkMacSystemFont, \"Segoe UI\", \"Noto Sans SC\", sans-serif;\n    background: #000000;\n    color: #E3F2FD;\n    line-height: 1.6;\n    min-height: 100vh;\n    position: relative;\n    overflow-x: hidden;\n\x7d\n\n.background-glow \x7b\n    position: fixed;\n    top: 0;\n    right: 0;\n    width: 100%;\n    height: 100%;\n    background: radial-gradient(ellipse at bottom right, rgba(26, 58, 82, 0.4) 0%, transparent 70%);\n    pointer-events: none;\n    z-index: 0;\n\x7d\n\n.container \x7b\n    max-width: 1200px;\n    margin: 0 auto;\n    padding: 2rem;\n    position: relative;\n    z-index: 1;\n\x7d\n\n.header \x7b\n    text-align: center;\n    margin-bottom: 3rem;\n    padding: 2rem 0;\n\x7d\n\n.logo-icon \x7b\n    font-size: 3rem;\n    margin-bottom: 1rem;\n\x7d\n\n.header h1 \x7b\n    font-size: 3rem;\n    font-weight: 700;\n    margin-bottom: 0.5rem;\n    background: linear-gradient(135deg, #42A5F5 0%, #64B5F6 100%);\n    -webkit-background-clip: text;\n    -webkit-text-fill-color: transparent;\n    background-clip: text;\n\x7d\n\n.date-badge \x7b\n    display: inline-block;\n    padding: 0.5rem 1.5rem;\n    background: rgba(66, 165, 245, 0.2);\n    border: 1px solid rgba(66, 165, 245, 0.3);\n    border-radius: 20px;\n    font-size: 0.9rem;\n    color: #42A5F5;\n\x7d\n\n.summary-card \x7b\n    background: rgba(10, 25, 41, 0.6);\n    border: 1px solid rgba(66, 165, 245, 0.2);\n    border-radius: 12px;\n    padding: 2rem;\n    margin-bottom: 3rem;\n    backdrop-filter: blur(10px);\n\x7d\n\n.section-title \x7b\n    font-size: 1.5rem;\n    margin-bottom: 1.5rem;\n    color: #42A5F5;\n\x7d\n\n.summary-list \x7b\n    list-style: none;\n\x7d\n\n.summary-item \x7b\n    padding: 0.75rem 0;\n    padding-left: 1.5rem;\n    position: relative;\n\x7d\n\n.summary-item::before \x7b\n    content: \"▸\";\n    position: absolute;\n    left: 0;\n    color: #42A5F5;\n    font-weight: bold;\n\x7d\n\n.category-section \x7b\n    margin-bottom: 3rem;\n\x7d\n\n.category-header \x7b\n    display: flex;\n    align-items: center;\n    margin-bottom: 2rem;\n    padding-bottom: 1rem;\n    border-bottom: 2px solid rgba(66, 165, 245, 0.3);\n\x7d\n\n.category-icon \x7b\n    font-size: 2rem;\n    margin-right: 1rem;\n\x7d\n\n.category-title \x7b\n    font-size: 1.8rem;\n    flex: 1;\n\x7d\n\n.category-count \x7b\n    padding: 0.25rem 0.75rem;\n    background: rgba(66, 165, 245, 0.2);\n    border-radius: 12px;\n    font-size: 0.9rem;\n\x7d\n\n.news-grid \x7b\n    display: grid;\n    grid-template-columns: repeat(auto-fill, minmax(350px, 1fr));\n    gap: 1.5rem;\n\x7d\n\n.news-card \x7b\n    background: rgba(10, 25, 41, 0.6);\n    border: 1px solid rgba(66, 165, 245, 0.2);\n    border-radius: 12px;\n    padding: 1.5rem;\n    backdrop-filter: blur(10px);\n    transition: transform 0.3s, box-shadow 0.3s;\n\x7d\n\n.news-card:hover \x7b\n    transform: translateY(-5px);\n    box-shadow: 0 10px 30px rgba(66, 165, 245, 0.2);\n\x7d\n\n.news-card-header \x7b\n    display: flex;\n    justify-content: space-between;\n    align-items: flex-start;\n    margin-bottom: 1rem;\n\x7d\n\n.news-title \x7b\n    font-size: 1.2rem;\n    font-weight: 600;\n    flex: 1;\n    padding-right: 1rem;\n\x7d\n\n.item-link \x7b\n    color: #42A5F5;\n    text-decoration: none;\n    padding: 0.25rem 0.75rem;\n    border: 1px solid rgba(66, 165, 245, 0.3);\n    border-radius: 6px;\n    font-size: 0.85rem;\n    white-space: nowrap;\n    transition: all 0.3s;\n\x7d\n\n.item-link:hover \x7b\n    background: rgba(66, 165, 245, 0.2);\n\x7d\n\n.news-summary \x7b\n    color: #B0BEC5;\n    margin-bottom: 1rem;\n    line-height: 1.6;\n\x7d\n\n.item-meta \x7b\n    display: flex;\n    justify-content: space-between;\n    font-size: 0.85rem;\n    color: #B0BEC5;\n    margin-bottom: 0.75rem;\n\x7d\n\n.item-tags \x7b\n    display: flex;\n    flex-wrap: wrap;\n    gap: 0.5rem;\n\x7d\n\n.tag \x7b\n    padding: 0.25rem 0.75rem;\n    background: rgba(66, 165, 245, 0.15);\n    border-radius: 6px;\n    font-size: 0.8rem;\n    color: #42A5F5;\n\x7d\n\n.footer-section \x7b\n    margin-top: 4rem;\n    padding-top: 2rem;\n    border-top: 1px solid rgba(66, 165, 245, 0.2);\n\x7d\n\n.keywords \x7b\n    margin-bottom: 1rem;\n    color: #42A5F5;\n\x7d\n\n.source-info \x7b\n    color: #B0BEC5;\n    font-size: 0.9rem;\n\x7d\n\n.source-info p \x7b\n    margin: 0.25rem 0;\n\x7d\n\n@media (max-width: 768px) \x7b\n    .container \x7b\n        padding: 1rem;\n    \x7d\n\n    .header h1 \x7b\n        font-size: 2rem;\n    \x7d\n\n    .news-grid \x7b\n        grid-template-columns: 1fr;\n    \x7d\n\x7d\n"

/-- Index-template chunk of `update_index`, up to the site description. -/
def idx1 : String :=
  "<!DOCTYPE html>\n<html lang=\"zh-CN\">\n<head>\n    <meta charset=\"UTF-8\">\n    <meta name=\"viewport\" content=\"width=device-width, initial-scale=1.0\">\n    <title>AI Daily - AI 资讯日报</title>\n    <meta name=\"description\" content=\""

/-- Index-template chunk between the site description and the meta refresh. -/
def idx2 : String :=
  "\">\n    "

/-- Index-template chunk between the meta refresh and the fallback anchor. -/
def idx3 : String :=
  "\n    <style>\n        body \x7b\n            font-family: -apple-system, BlinkMacSystemFont, \"Segoe UI\", sans-serif;\n            background: #000000;\n            color: #E3F2FD;\n            display: flex;\n            justify-content: center;\n            align-items: center;\n            min-height: 100vh;\n            margin: 0;\n        \x7d\n        .container \x7b\n            text-align: center;\n            padding: 2rem;\n        \x7d\n        h1 \x7b\n            font-size: 2rem;\n            margin-bottom: 1rem;\n        \x7d\n        p \x7b\n            color: #B0BEC5;\n        \x7d\n        a \x7b\n            color: #42A5F5;\n            text-decoration: none;\n        \x7d\n    </style>\n</head>\n<body>\n    <div class=\"container\">\n        <h1>🤖 AI Daily</h1>\n        <p>正在跳转到最新资讯...</p>\n        <p>"

/-- Index-template chunk closing the document. -/
def idx4 : String :=
  "如果没有自动跳转，请点击这里</a></p>\n    </div>\n</body>\n</html>"

/-- `simple_generator.update_index` document body: a meta refresh with
delay 0 pointing at the dated page, a style block, and a manual fallback
anchor to the same page.  `date_str` is accepted but, as in the source,
never interpolated. -/
def indexHtml (target_date date_str : String) : String :=
  let _ := date_str
  idx1 ++ siteMetaDescription ++ idx2 ++
    ("<meta http-equiv=\"refresh\" content=\"0;url=" ++ target_date ++ ".html\">") ++ idx3 ++
    ("<a href=\"" ++ target_date ++ ".html\">") ++ idx4

/-- `simple_generator.update_index` as a write: the fixed-name path under
`output_dir` and the freshly built content (mode `w`, no read-back). -/
def update_index (output_dir target_date date_str : String) : String × String :=
  (output_dir ++ "/index.html", indexHtml target_date date_str)

/-- `simple_generator.generate_css` as a write: the stylesheet path it
receives and the constant stylesheet content (mode `w`). -/
def generate_css (css_path : String) : String × String :=
  (css_path, cssContent)

/-- Days in a month of the Gregorian calendar, for `strptime` validation. -/
def daysInMonth (y m : Nat) : Nat :=
  if m = 2 then (if (y % 4 = 0 ∧ y % 100 ≠ 0) ∨ y % 400 = 0 then 29 else 28)
  else if m = 4 ∨ m = 6 ∨ m = 9 ∨ m = 11 then 30 else 31

/-- Split a character list at every dash, keeping empty fields. -/
def splitOnDash : List Char → List (List Char)
  | [] => [[]]
  | c :: rest =>
    let r := splitOnDash rest
    if c = '-' then [] :: r
    else
      match r with
      | [] => [[c]]
      | h :: t => (c :: h) :: t

/-- Parse a non-empty all-digit character list as a decimal number. -/
def digitsToNat : List Char → Nat → Option Nat
  | [], acc => some acc
  | c :: rest, acc =>
    if c.isDigit then digitsToNat rest (acc * 10 + (c.toNat - 48)) else none

/-- Parse one numeric field of the date format. -/
def fieldToNat (cs : List Char) : Option Nat :=
  if cs.isEmpty then none else digitsToNat cs 0

/-- `datetime.strptime(target_date, "%Y-%m-%d")`: three dash-separated
numeric fields forming a valid calendar date, else an exception (`none`). -/
def parseTargetDate (s : String) : Option (Nat × Nat × Nat) :=
  match (splitOnDash s.toList).map fieldToNat with
  | [some y, some m, some d] =>
    if 1 ≤ m ∧ m ≤ 12 ∧ 1 ≤ d ∧ d ≤ daysInMonth y m then some (y, m, d) else none
  | _ => none

/-- Days since 1970-01-01 of a Gregorian date (civil-from-days inverse). -/
def daysFromCivil (y m d : Int) : Int :=
  let y2 := if m ≤ 2 then y - 1 else y
  let era := (if 0 ≤ y2 then y2 else y2 - 399) / 400
  let yoe := y2 - era * 400
  let mp := (m + 9) % 12
  let doy := (153 * mp + 2) / 5 + d - 1
  let doe := yoe * 365 + yoe / 4 - yoe / 100 + doy
  era * 146097 + doe - 719468

/-- Python's `date.weekday()`: Monday is 0, Sunday is 6. -/
def pyWeekday (y m d : Nat) : Nat :=
  (((daysFromCivil y m d) + 3) % 7).toNat

/-- The weekday-name list indexed by `date_obj.weekday()` in
`generate_simple_html`. -/
def weekdayNames : List String :=
  ["星期一", "星期二", "星期三", "星期四", "星期五", "星期六", "星期日"]

/-- The `date_str` built by `generate_simple_html`:
`f"{year}年{month}月{day}日 {weekday}"`, or `none` when `strptime` raises. -/
def dateStrOfTarget (target_date : String) : Option String :=
  match parseTargetDate target_date with
  | none => none
  | some (y, m, d) =>
    some (toString y ++ "年" ++ toString m ++ "月" ++ toString d ++ "日 " ++
      (weekdayNames.getD (pyWeekday y m d) ""))

/-- `simple_generator.generate_simple_html` as the ordered list of file
writes it performs plus the returned path.  The stylesheet is written
first; if `strptime` raises on `target_date` the run aborts there (no
page, no index, no return value).  `now_ts` is the one impure template
input, `datetime.now().strftime('%Y-%m-%d %H:%M:%S')`. -/
def generate_simple_html (output_dir : String) (news_list : List NewsItem)
    (target_date : String) (now_ts : String) :
    List (String × String) × Option String :=
  match dateStrOfTarget target_date with
  | none => ([generate_css (output_dir ++ "/css/styles.css")], none)
  | some date_str =>
    let keywords := extract_keywords news_list
    let html_content := build_html news_list target_date date_str keywords now_ts
    let filepath := output_dir ++ "/" ++ target_date ++ ".html"
    ([generate_css (output_dir ++ "/css/styles.css"),
      (filepath, html_content),
      update_index output_dir target_date date_str],
     some filepath)

/-- Apply a sequence of `open(path, "w")` writes to a filesystem (a map
from path to content): each write replaces whatever the path held. -/
def applyWrites (fs : String → Option String) : List (String × String) → String → Option String
  | [] => fs
  | (p, c) :: rest => applyWrites (fun q => if q = p then some c else fs q) rest

/-- Outcome of one call to an external collaborator inside `main`'s `try`
block: a value, a raised exception, or a `KeyboardInterrupt`. -/
inductive Outcome (α : Type) where
  | ok (v : α)
  | exn (msg : String)
  | intr
  deriving DecidableEq

/-- The fields of the analysis collaborator's result that `main` reads:
`status`, `reason`, and the total item count over `categories`. -/
structure AnalysisResult where
  status : Option String
  reason : Option String
  itemCount : Nat
  deriving DecidableEq

/-- Externally observable effects of one `main` run.  Dates carried by
notifications are day numbers (the `%Y-%m-%d` rendering is injective on
days, so distinct day numbers are distinct date strings). -/
inductive Event where
  | wroteHtml (path : String)
  | generatedImage (path : Option String)
  | sentSuccess (day : Int) (count : Nat)
  | sentEmpty (day : Int) (reason : String)
  | sentError (day : Int) (msg : String)
  deriving DecidableEq

/-- `main.get_target_date`: the deprecated helper, today minus an offset
of days (its default argument is 2). -/
def get_target_date (today days_offset : Int) : Int :=
  today - days_offset

/-- `main.get_latest_available_date`: today's UTC date. -/
def get_latest_available_date (today : Int) : Int :=
  today

/-- The environment of one `main` run: configuration flags resolved at
start, today's UTC date, and the outcome of each collaborator call in
program order. -/
structure MainEnv where
  zhipuKeySet : Bool
  emailEnabled : Bool
  imageEnabled : Bool
  today : Int
  fetchO : Outcome (List NewsItem)
  contentO : Outcome Unit
  analyzeO : Outcome AnalysisResult
  htmlO : Outcome String
  imageO : Outcome (Option String)
  xhsO : Outcome String
  sendEmptyO : Outcome Unit
  sendSuccessO : Outcome Unit

/-- `main`'s `except Exception` handler: best-effort error notification
(dated with the deprecated helper at offset 2), then exit status 1. -/
def onError (env : MainEnv) (acc : List Event) (msg : String) : List Event × Nat :=
  (acc ++ (if env.emailEnabled then [Event.sentError (get_target_date env.today 2) msg] else []),
   1)

/-- Steps 7 and after of `main`: the optional success notification and
the final exit with status 0. -/
def afterImage (env : MainEnv) (result : AnalysisResult) (acc : List Event) :
    List Event × Nat :=
  if env.emailEnabled then
    match env.sendSuccessO with
    | Outcome.intr => (acc, 130)
    | Outcome.exn m => onError env acc m
    | Outcome.ok _ =>
      (acc ++ [Event.sentSuccess (get_latest_available_date env.today) result.itemCount], 0)
  else (acc, 0)

/-- Step 6 of `main`: the optional image generation (share card, then the
alternate-format cover), then the tail of the run. -/
def afterHtml (env : MainEnv) (result : AnalysisResult) (acc : List Event) :
    List Event × Nat :=
  if env.imageEnabled then
    match env.imageO with
    | Outcome.intr => (acc, 130)
    | Outcome.exn m => onError env acc m
    | Outcome.ok imgPath =>
      let acc2 := acc ++ [Event.generatedImage imgPath]
      match env.xhsO with
      | Outcome.intr => (acc2, 130)
      | Outcome.exn m => onError env acc2 m
      | Outcome.ok _ => afterImage env result acc2
  else afterImage env result acc

/-- `main.main`: configuration check, then the linear sequence
fetch → date → format → analyze → (empty early exit) → render →
(optional image) → (optional notify), wrapped by the two top-level
handlers (`KeyboardInterrupt` → 130, `Exception` → notify-error and 1).
Returns the observable events and the process exit status. -/
def mainRun (env : MainEnv) : List Event × Nat :=
  if env.zhipuKeySet = false then ([], 1) else
  match env.fetchO with
  | Outcome.intr => ([], 130)
  | Outcome.exn m => onError env [] m
  | Outcome.ok _ =>
    match env.contentO with
    | Outcome.intr => ([], 130)
    | Outcome.exn m => onError env [] m
    | Outcome.ok _ =>
      match env.analyzeO with
      | Outcome.intr => ([], 130)
      | Outcome.exn m => onError env [] m
      | Outcome.ok result =>
        if result.status = some "empty" then
          if env.emailEnabled then
            match env.sendEmptyO with
            | Outcome.intr => ([], 130)
            | Outcome.exn m => onError env [] m
            | Outcome.ok _ =>
              ([Event.sentEmpty (get_latest_available_date env.today)
                  (result.reason.getD "内容分析为空")], 0)
          else ([], 0)
        else
          match env.htmlO with
          | Outcome.intr => ([], 130)
          | Outcome.exn m => onError env [] m
          | Outcome.ok path => afterHtml env result [Event.wroteHtml path]

/-- A fully successful run environment, used to instantiate theorems. -/
def envAllOk : MainEnv where
  zhipuKeySet := true
  emailEnabled := true
  imageEnabled := false
  today := 19875
  fetchO := Outcome.ok []
  contentO := Outcome.ok ()
  analyzeO := Outcome.ok ⟨none, none, 3⟩
  htmlO := Outcome.ok "output/2024-06-01.html"
  imageO := Outcome.ok none
  xhsO := Outcome.ok "xhs.png"
  sendEmptyO := Outcome.ok ()
  sendSuccessO := Outcome.ok ()

/-- A run whose analysis collaborator reports the empty status. -/
def envEmptyAnalysis : MainEnv :=
  { envAllOk with analyzeO := Outcome.ok ⟨some "empty", some "今日无内容", 0⟩ }

/-- A run whose fetch step raises. -/
def envFetchError : MainEnv :=
  { envAllOk with fetchO := Outcome.exn "boom" }

/-- The tag-collection loop with fewer than 4 labels collected so far
computes the matching labels in table order, truncated to 4. -/
theorem collectTags_eq (title : String) (tbl : List (String × String)) (tags : List String)
    (h : tags.length < 4) :
    collectTags title tbl tags =
      (tags ++ (tbl.filter (fun p => strContains title p.1)).map Prod.snd).take 4 := by
  induction tbl generalizing tags with
  | nil =>
    simp [collectTags, List.take_of_length_le (Nat.le_of_lt h)]
  | cons hd rest ih =>
    obtain ⟨keyword, tag⟩ := hd
    cases hc : strContains title keyword with
    | false =>
      simpa [collectTags, hc] using ih tags h
    | true =>
      have hsplit : tags ++ tag ::
            (rest.filter (fun p => strContains title p.1)).map Prod.snd =
          (tags ++ [tag]) ++
            (rest.filter (fun p => strContains title p.1)).map Prod.snd := by
        simp
      by_cases h4 : 4 ≤ (tags ++ [tag]).length
      · have hlen : (tags ++ [tag]).length = 4 := by
          simp only [List.length_append, List.length_singleton] at h4 ⊢
          omega
        simp only [collectTags, hc, if_true, List.filter_cons, List.map_cons]
        rw [if_pos h4, hsplit, ← hlen, List.take_left]
      · have hlt : (tags ++ [tag]).length < 4 := Nat.lt_of_not_le h4
        simp only [collectTags, hc, if_true, List.filter_cons, List.map_cons]
        rw [if_neg h4, ih (tags ++ [tag]) hlt, hsplit]

/-- C1: for every title, the tag extractor returns the labels of the
matching `(substring, label)` pairs of the fixed table, in table order,
truncated to 4; when nothing matches it returns exactly `["AI"]`.  The
result is never empty and never longer than 4. -/
theorem extract_tags_from_title_spec (title : String) :
    extract_tags_from_title title =
      (if (tagTable.filter (fun p => strContains title p.1)).map Prod.snd = []
       then ["AI"]
       else ((tagTable.filter (fun p => strContains title p.1)).map Prod.snd).take 4) ∧
    (extract_tags_from_title title).length ≤ 4 ∧
    extract_tags_from_title title ≠ [] := by
  have key : collectTags title tagTable [] =
      ((tagTable.filter (fun p => strContains title p.1)).map Prod.snd).take 4 := by
    simpa using collectTags_eq title tagTable [] (by norm_num)
  have hlen4 : ∀ l : List String, (List.take 4 l).length ≤ 4 := fun l => by
    rw [List.length_take]
    omega
  simp only [extract_tags_from_title]
  rw [key]
  rcases hM : (tagTable.filter (fun p => strContains title p.1)).map Prod.snd with _ | ⟨a, t⟩
  · rw [hM]
    simp
  · rw [hM]
    refine ⟨by simp, ?_, by simp⟩
    by_cases hE : (List.take 4 (a :: t)).isEmpty = true
    · rw [if_pos hE]
      simp
    · rw [if_neg hE]
      exact hlen4 _

/-- Membership after the vocabulary scan of one title: either the
keyword was already collected, or it is a vocabulary word occurring in
the title. -/
theorem mem_kwStep_foldl (title : String) (vs : List String) (acc : List String) (kw : String)
    (h : kw ∈ vs.foldl (kwStep title) acc) :
    kw ∈ acc ∨ (kw ∈ vs ∧ strContains title kw = true) := by
  induction vs generalizing acc with
  | nil => exact Or.inl h
  | cons v rest ih =>
    simp only [List.foldl_cons] at h
    rcases ih _ h with h1 | h2
    · unfold kwStep at h1
      by_cases hc : strContains title v = true
      · rw [if_pos hc] at h1
        unfold addKw at h1
        by_cases hm : v ∈ acc
        · rw [if_pos hm] at h1
          exact Or.inl h1
        · rw [if_neg hm] at h1
          rcases List.mem_append.mp h1 with h3 | h3
          · exact Or.inl h3
          · have hkv : kw = v := by simpa using h3
            subst hkv
            exact Or.inr ⟨List.mem_cons_self kw rest, hc⟩
      · rw [if_neg hc] at h1
        exact Or.inl h1
    · exact Or.inr ⟨List.mem_cons_of_mem _ h2.1, h2.2⟩

/-- Membership after the whole title scan: either already collected, or
witnessed by one of the scanned news records. -/
theorem mem_newsStep_foldl (l : List NewsItem) (acc : List String) (kw : String)
    (h : kw ∈ l.foldl newsStep acc) :
    kw ∈ acc ∨ ∃ news ∈ l, kw ∈ keywordVocab ∧ strContains (news.title.getD "") kw = true := by
  induction l generalizing acc with
  | nil => exact Or.inl h
  | cons news rest ih =>
    simp only [List.foldl_cons] at h
    rcases ih _ h with h1 | ⟨news2, hmem, hkw⟩
    · rcases mem_kwStep_foldl _ _ _ _ h1 with h2 | h2
      · exact Or.inl h2
      · exact Or.inr ⟨news, List.mem_cons_self news rest, h2⟩
    · exact Or.inr ⟨news2, List.mem_cons_of_mem _ hmem, hkw⟩

/-- `addKw` keeps the accumulator duplicate-free. -/
theorem addKw_nodup (acc : List String) (kw : String) (h : acc.Nodup) :
    (addKw acc kw).Nodup := by
  unfold addKw
  by_cases hm : kw ∈ acc
  · rwa [if_pos hm]
  · rw [if_neg hm]
    simp [List.nodup_append, h, hm]

/-- The vocabulary scan keeps the accumulator duplicate-free. -/
theorem kwStep_foldl_nodup (title : String) (vs : List String) (acc : List String)
    (h : acc.Nodup) : (vs.foldl (kwStep title) acc).Nodup := by
  induction vs generalizing acc with
  | nil => exact h
  | cons v rest ih =>
    simp only [List.foldl_cons]
    apply ih
    unfold kwStep
    by_cases hc : strContains title v = true
    · rw [if_pos hc]
      exact addKw_nodup _ _ h
    · rwa [if_neg hc]

/-- The title scan keeps the accumulator duplicate-free. -/
theorem newsStep_foldl_nodup (l : List NewsItem) (acc : List String) (h : acc.Nodup) :
    (l.foldl newsStep acc).Nodup := by
  induction l generalizing acc with
  | nil => exact h
  | cons news rest ih =>
    simp only [List.foldl_cons]
    exact ih _ (kwStep_foldl_nodup _ _ _ h)

/-- `addKw` never removes collected keywords. -/
theorem mem_addKw_of_mem (acc : List String) (v kw : String) (h : kw ∈ acc) :
    kw ∈ addKw acc v := by
  unfold addKw
  by_cases hm : v ∈ acc
  · rwa [if_pos hm]
  · rw [if_neg hm]
    exact List.mem_append_left _ h

/-- `addKw` does collect the added keyword. -/
theorem mem_addKw_self (acc : List String) (kw : String) : kw ∈ addKw acc kw := by
  unfold addKw
  by_cases hm : kw ∈ acc
  · rwa [if_pos hm]
  · rw [if_neg hm]
    exact List.mem_append_right _ (List.mem_singleton_self kw)

/-- The vocabulary scan never removes collected keywords. -/
theorem kwStep_foldl_mono (title : String) (vs : List String) (acc : List String)
    (kw : String) (h : kw ∈ acc) : kw ∈ vs.foldl (kwStep title) acc := by
  induction vs generalizing acc with
  | nil => exact h
  | cons v rest ih =>
    simp only [List.foldl_cons]
    apply ih
    unfold kwStep
    by_cases hc : strContains title v = true
    · rw [if_pos hc]
      exact mem_addKw_of_mem _ _ _ h
    · rwa [if_neg hc]

/-- The vocabulary scan collects every vocabulary word occurring in the
title. -/
theorem kwStep_foldl_complete (title : String) (vs : List String) (acc : List String)
    (kw : String) (hv : kw ∈ vs) (hc : strContains title kw = true) :
    kw ∈ vs.foldl (kwStep title) acc := by
  induction vs generalizing acc with
  | nil => exact absurd hv (List.not_mem_nil kw)
  | cons v rest ih =>
    simp only [List.foldl_cons]
    rcases List.mem_cons.mp hv with hkv | hrest
    · subst hkv
      apply kwStep_foldl_mono
      unfold kwStep
      rw [if_pos hc]
      exact mem_addKw_self _ _
    · exact ih _ hrest

/-- The title scan never removes collected keywords. -/
theorem newsStep_foldl_mono (l : List NewsItem) (acc : List String) (kw : String)
    (h : kw ∈ acc) : kw ∈ l.foldl newsStep acc := by
  induction l generalizing acc with
  | nil => exact h
  | cons news rest ih =>
    simp only [List.foldl_cons]
    exact ih _ (kwStep_foldl_mono _ _ _ _ h)

/-- The title scan collects every vocabulary word occurring in one of
the scanned titles. -/
theorem newsStep_foldl_complete (l : List NewsItem) (acc : List String) (kw : String)
    (news : NewsItem) (hn : news ∈ l) (hv : kw ∈ keywordVocab)
    (hc : strContains (news.title.getD "") kw = true) :
    kw ∈ l.foldl newsStep acc := by
  induction l generalizing acc with
  | nil => exact absurd hn (List.not_mem_nil news)
  | cons n rest ih =>
    simp only [List.foldl_cons]
    rcases List.mem_cons.mp hn with hn1 | hn2
    · subst hn1
      exact newsStep_foldl_mono _ _ _ (kwStep_foldl_complete _ _ _ _ hv hc)
    · exact ih _ hn2

/-- The accumulated keyword set fits inside the vocabulary, so the final
cap of 10 never drops anything. -/
theorem kwFold_take_eq (news_list : List NewsItem) :
    ((news_list.take 10).foldl newsStep []).take 10 =
      (news_list.take 10).foldl newsStep [] := by
  apply List.take_of_length_le
  have hnd : ((news_list.take 10).foldl newsStep []).Nodup :=
    newsStep_foldl_nodup _ _ List.nodup_nil
  have hsub : ((news_list.take 10).foldl newsStep []) ⊆ keywordVocab := by
    intro kw hkw
    rcases mem_newsStep_foldl _ _ _ hkw with h | ⟨_, _, h2⟩
    · exact absurd h (List.not_mem_nil kw)
    · exact h2.1
  have := (List.subperm_of_subset hnd hsub).length_le
  simp only [keywordVocab, List.length_cons, List.length_nil] at this
  omega

/-- C6: the page-level keyword extraction looks only at the first 10
titles, returns at most 10 keywords with no duplicates, every returned
keyword is a vocabulary word contained in the title of one of the first
10 news records, and every vocabulary word contained in one of those
titles is returned. -/
theorem extract_keywords_spec (news_list : List NewsItem) :
    (extract_keywords news_list).length ≤ 10 ∧
    (extract_keywords news_list).Nodup ∧
    (∀ kw ∈ extract_keywords news_list, kw ∈ keywordVocab ∧
      ∃ news ∈ news_list.take 10, strContains (news.title.getD "") kw = true) ∧
    (∀ kw ∈ keywordVocab,
      (∃ news ∈ news_list.take 10, strContains (news.title.getD "") kw = true) →
      kw ∈ extract_keywords news_list) := by
  refine ⟨?_, ?_, ?_, ?_⟩
  · rw [extract_keywords, List.length_take]
    omega
  · exact List.Nodup.sublist (List.take_sublist _ _)
      (newsStep_foldl_nodup _ _ List.nodup_nil)
  · intro kw hkw
    have hmem : kw ∈ (news_list.take 10).foldl newsStep [] :=
      List.mem_of_mem_take hkw
    rcases mem_newsStep_foldl _ _ _ hmem with h | ⟨news, hmem2, hkw2⟩
    · exact absurd h (List.not_mem_nil kw)
    · exact ⟨hkw2.1, news, hmem2, hkw2.2⟩
  · intro kw hv ⟨news, hn, hc⟩
    rw [extract_keywords, kwFold_take_eq]
    exact newsStep_foldl_complete _ _ _ _ hn hv hc

/-- Witness for `extract_keywords_spec` at a concrete news list. -/
theorem extract_keywords_spec_witness :
    "大模型" ∈ extract_keywords [⟨some "AI 大模型时代", none, none, none, none⟩] ∧
    ("大模型" ∈ keywordVocab ∧
      ∃ news ∈ [(⟨some "AI 大模型时代", none, none, none, none⟩ : NewsItem)].take 10,
        strContains (news.title.getD "") "大模型" = true) :=
  ⟨by decide,
   (extract_keywords_spec [⟨some "AI 大模型时代", none, none, none, none⟩]).2.2.1
     "大模型" (by decide)⟩

/-- C2: the page's core-summary section is built from exactly the first
5 news records, and each summary line renders a description longer than
100 characters as its first 100 characters followed by `"..."`, and a
description of at most 100 characters verbatim. -/
theorem summary_truncation_spec (news_list : List NewsItem) (target_date date_str : String)
    (keywords : List String) (now_ts : String) :
    (∃ pre post : String,
      build_html news_list target_date date_str keywords now_ts =
        pre ++ generate_summary (news_list.take 5) ++ post) ∧
    (∀ (item : NewsItem) (desc : String), item.description = some desc →
      (100 < desc.length →
        summaryItemLine item =
          "                <li class=\"summary-item\">" ++ item.title.getD "无标题" ++
            " - " ++ (desc.take 100 ++ "...") ++ "</li>\n") ∧
      (desc.length ≤ 100 →
        summaryItemLine item =
          "                <li class=\"summary-item\">" ++ item.title.getD "无标题" ++
            " - " ++ desc ++ "</li>\n")) ∧
    (∀ nl : List NewsItem, nl ≠ [] →
      generate_summary nl = sumHeader ++ String.join (nl.map summaryItemLine) ++ sumFooter) := by
  refine ⟨?_, ?_, ?_⟩
  · refine ⟨bh1 ++ date_str ++ bh2 ++ siteMetaDescription ++ bh3 ++
      (if keywords.isEmpty then "AI, 人工智能, 科技" else String.intercalate ", " keywords) ++
      bh4 ++ date_str ++ bh5,
      bh6 ++ toString news_list.length ++ bh7 ++ generate_news_cards news_list ++ bh8 ++
      String.intercalate " " (keywords.map (fun kw => "#" ++ kw)) ++ bh9 ++ now_ts ++ bh10,
      ?_⟩
    simp [build_html, String.append_assoc]
  · intro item desc hdesc
    constructor
    · intro hlen
      simp only [summaryItemLine, hdesc, Option.getD_some]
      rw [if_pos hlen]
    · intro hlen
      simp only [summaryItemLine, hdesc, Option.getD_some]
      rw [if_neg (by omega)]
  · intro nl hnl
    rw [generate_summary, if_neg (by simp [List.isEmpty_iff, hnl])]

/-- Witness for `summary_truncation_spec`: a 101-character description is
truncated to its first 100 characters plus the ellipsis marker. -/
theorem summary_truncation_spec_witness :
    100 < (String.mk (List.replicate 101 'a')).length ∧
    summaryItemLine ⟨some "标题", some (String.mk (List.replicate 101 'a')), none, none, none⟩ =
      "                <li class=\"summary-item\">" ++ (some "标题").getD "无标题" ++
        " - " ++ ((String.mk (List.replicate 101 'a')).take 100 ++ "...") ++ "</li>\n" :=
  ⟨by decide,
   ((summary_truncation_spec [] "" "" [] "").2.1
      ⟨some "标题", some (String.mk (List.replicate 101 'a')), none, none, none⟩
      (String.mk (List.replicate 101 'a')) rfl).1 (by decide)⟩

/-- C5: the renderer tolerates missing fields and empty input: the
summary and the card grid of an empty news list are empty strings, the
page is still a complete document for every input, and a record with a
missing title, description, url, source or timestamp renders exactly as
if the field held its placeholder (`"无标题"`, `""`, `"#"`, `"未知来源"`,
`""` respectively). -/
theorem renderer_tolerates_missing_fields :
    generate_summary [] = "" ∧
    generate_news_cards [] = "" ∧
    (∀ (news_list : List NewsItem) (target_date date_str : String)
        (keywords : List String) (now_ts : String),
      ∃ rest : String,
        build_html news_list target_date date_str keywords now_ts =
          rest ++ "</body>\n</html>") ∧
    (∀ item : NewsItem, item.title = none →
      summaryItemLine item = summaryItemLine { item with title := some "无标题" } ∧
      cardHtml item = cardHtml { item with title := some "无标题" }) ∧
    (∀ item : NewsItem, item.description = none →
      summaryItemLine item = summaryItemLine { item with description := some "" } ∧
      cardHtml item = cardHtml { item with description := some "" }) ∧
    (∀ item : NewsItem,
      (item.url = none → cardHtml item = cardHtml { item with url := some "#" }) ∧
      (item.source = none → cardHtml item = cardHtml { item with source := some "未知来源" }) ∧
      (item.ctime = none → cardHtml item = cardHtml { item with ctime := some "" })) := by
  refine ⟨rfl, rfl, ?_, ?_, ?_, ?_⟩
  · intro news_list target_date date_str keywords now_ts
    refine ⟨bh1 ++ date_str ++ bh2 ++ siteMetaDescription ++ bh3 ++
      (if keywords.isEmpty then "AI, 人工智能, 科技" else String.intercalate ", " keywords) ++
      bh4 ++ date_str ++ bh5 ++ generate_summary (news_list.take 5) ++ bh6 ++
      toString news_list.length ++ bh7 ++ generate_news_cards news_list ++ bh8 ++
      String.intercalate " " (keywords.map (fun kw => "#" ++ kw)) ++ bh9 ++ now_ts ++
      bh10Script, ?_⟩
    simp [build_html, bh10, String.append_assoc]
  · rintro ⟨t, d, u, s, c⟩ ht
    cases ht
    exact ⟨rfl, rfl⟩
  · rintro ⟨t, d, u, s, c⟩ hd
    cases hd
    exact ⟨rfl, rfl⟩
  · rintro ⟨t, d, u, s, c⟩
    refine ⟨?_, ?_, ?_⟩ <;> rintro h <;> cases h <;> rfl

/-- Witness for `renderer_tolerates_missing_fields`: a record with no
title at all renders with the placeholder title. -/
theorem renderer_tolerates_missing_fields_witness :
    (NewsItem.mk none none none none none).title = none ∧
    cardHtml (NewsItem.mk none none none none none) =
      cardHtml (NewsItem.mk (some "无标题") none none none none) :=
  ⟨rfl, (renderer_tolerates_missing_fields.2.2.2.1 (NewsItem.mk none none none none none)
    rfl).2⟩

/-- C7: the index writer targets the fixed name `index.html` under the
output directory, its document contains a zero-delay meta refresh to the
dated page and a fallback anchor to the same page, and the written
content replaces whatever the filesystem previously held at that path. -/
theorem update_index_spec (output_dir target_date date_str : String) :
    (update_index output_dir target_date date_str).1 = output_dir ++ "/index.html" ∧
    (∃ a b : String, (update_index output_dir target_date date_str).2 =
      a ++ ("<meta http-equiv=\"refresh\" content=\"0;url=" ++ target_date ++ ".html\">") ++ b) ∧
    (∃ a b : String, (update_index output_dir target_date date_str).2 =
      a ++ ("<a href=\"" ++ target_date ++ ".html\">") ++ b) ∧
    (∀ fs : String → Option String,
      applyWrites fs [update_index output_dir target_date date_str]
        (output_dir ++ "/index.html") = some (indexHtml target_date date_str)) := by
  refine ⟨rfl, ?_, ?_, ?_⟩
  · refine ⟨idx1 ++ siteMetaDescription ++ idx2,
      idx3 ++ ("<a href=\"" ++ target_date ++ ".html\">") ++ idx4, ?_⟩
    simp [update_index, indexHtml, String.append_assoc]
  · refine ⟨idx1 ++ siteMetaDescription ++ idx2 ++
      ("<meta http-equiv=\"refresh\" content=\"0;url=" ++ target_date ++ ".html\">") ++ idx3,
      idx4, ?_⟩
    simp [update_index, indexHtml, String.append_assoc]
  · intro fs
    simp [applyWrites, update_index]

/-- A path not written by a write sequence keeps its previous content. -/
theorem applyWrites_not_mem (ws : List (String × String)) (fs : String → Option String)
    (p : String) (h : p ∉ ws.map Prod.fst) :
    applyWrites fs ws p = fs p := by
  induction ws generalizing fs with
  | nil => rfl
  | cons w rest ih =>
    obtain ⟨q, c⟩ := w
    simp only [List.map_cons, List.mem_cons, not_or] at h
    rw [applyWrites, ih _ h.2]
    exact if_neg h.1

/-- A path written by a write sequence ends with content independent of
the previous filesystem state: writes overwrite, they never append. -/
theorem applyWrites_overwrites (ws : List (String × String))
    (fs1 fs2 : String → Option String) (p : String) (h : p ∈ ws.map Prod.fst) :
    applyWrites fs1 ws p = applyWrites fs2 ws p := by
  induction ws generalizing fs1 fs2 with
  | nil => exact absurd h (List.not_mem_nil p)
  | cons w rest ih =>
    obtain ⟨q, c⟩ := w
    by_cases hrest : p ∈ rest.map Prod.fst
    · exact ih _ _ hrest
    · simp only [List.map_cons, List.mem_cons] at h
      have hpq : p = q := h.resolve_right hrest
      rw [applyWrites, applyWrites, applyWrites_not_mem rest _ p hrest,
        applyWrites_not_mem rest _ p hrest, if_pos hpq, if_pos hpq]

/-- C3: the rendering pipeline is deterministic up to the embedded
generation timestamp: for a fixed output directory, news list and date,
either every run produces the identical write set (the invalid-date
case), or there are strings `pre`, `post` and an index document — all
functions of the inputs only — such that a run with timestamp `now_ts`
writes exactly the stylesheet, the dated page `pre ++ now_ts ++ post`,
and that index document.  Two runs therefore differ only in the
timestamp substring of the dated page. -/
theorem render_deterministic_mod_timestamp (output_dir : String) (news_list : List NewsItem)
    (target_date : String) :
    (∀ ts1 ts2 : String,
      generate_simple_html output_dir news_list target_date ts1 =
      generate_simple_html output_dir news_list target_date ts2) ∨
    (∃ pre post idxc : String, ∀ now_ts : String,
      generate_simple_html output_dir news_list target_date now_ts =
        ([(output_dir ++ "/css/styles.css", cssContent),
          (output_dir ++ "/" ++ target_date ++ ".html", pre ++ now_ts ++ post),
          (output_dir ++ "/index.html", idxc)],
         some (output_dir ++ "/" ++ target_date ++ ".html"))) := by
  cases h : dateStrOfTarget target_date with
  | none =>
    left
    intro ts1 ts2
    simp [generate_simple_html, h]
  | some ds =>
    right
    refine ⟨bh1 ++ ds ++ bh2 ++ siteMetaDescription ++ bh3 ++
      (if (extract_keywords news_list).isEmpty then "AI, 人工智能, 科技"
       else String.intercalate ", " (extract_keywords news_list)) ++ bh4 ++ ds ++ bh5 ++
      generate_summary (news_list.take 5) ++ bh6 ++ toString news_list.length ++ bh7 ++
      generate_news_cards news_list ++ bh8 ++
      String.intercalate " " ((extract_keywords news_list).map (fun kw => "#" ++ kw)) ++ bh9,
      bh10, indexHtml target_date ds, ?_⟩
    intro now_ts
    simp [generate_simple_html, h, build_html, update_index, generate_css,
      String.append_assoc]

/-- C8: for a parseable date the pipeline's write targets are exactly
the three paths determined by the date string — the stylesheet, the
dated page and the index — and replaying the writes over any two prior
filesystem states leaves identical content at every written path:
rerunning the renderer for the same date overwrites, it never appends. -/
theorem output_paths_spec (output_dir : String) (news_list : List NewsItem)
    (target_date date_str now_ts : String)
    (h : dateStrOfTarget target_date = some date_str) :
    ((generate_simple_html output_dir news_list target_date now_ts).1.map Prod.fst =
      [output_dir ++ "/css/styles.css",
       output_dir ++ "/" ++ target_date ++ ".html",
       output_dir ++ "/index.html"]) ∧
    (∀ fs1 fs2 : String → Option String, ∀ p : String,
      p ∈ (generate_simple_html output_dir news_list target_date now_ts).1.map Prod.fst →
      applyWrites fs1 (generate_simple_html output_dir news_list target_date now_ts).1 p =
      applyWrites fs2 (generate_simple_html output_dir news_list target_date now_ts).1 p) := by
  constructor
  · simp [generate_simple_html, h, generate_css, update_index]
  · intro fs1 fs2 p hp
    exact applyWrites_overwrites _ fs1 fs2 p hp

/-- Witness for `output_paths_spec` at the date `2024-06-01` (a
Saturday): the three write targets are as stated. -/
theorem output_paths_spec_witness :
    dateStrOfTarget "2024-06-01" = some "2024年6月1日 星期六" ∧
    (generate_simple_html "output" [] "2024-06-01" "now").1.map Prod.fst =
      ["output" ++ "/css/styles.css", "output" ++ "/" ++ "2024-06-01" ++ ".html",
       "output" ++ "/index.html"] :=
  ⟨by decide,
   (output_paths_spec "output" [] "2024-06-01" "2024年6月1日 星期六" "now" (by decide)).1⟩

/-- Events already emitted are preserved by the tail of the run. -/
theorem afterImage_mem (env : MainEnv) (r : AnalysisResult) (acc : List Event) (e : Event)
    (h : e ∈ acc) : e ∈ (afterImage env r acc).1 := by
  unfold afterImage
  cases henv : env.emailEnabled
  · simpa using h
  · cases hs : env.sendSuccessO <;> simp [onError, h]

/-- Events already emitted are preserved by the image step and the tail
of the run. -/
theorem afterHtml_mem (env : MainEnv) (r : AnalysisResult) (acc : List Event) (e : Event)
    (h : e ∈ acc) : e ∈ (afterHtml env r acc).1 := by
  unfold afterHtml
  cases hi : env.imageEnabled
  · simpa using afterImage_mem env r acc e h
  · cases him : env.imageO with
    | intr => simpa using h
    | exn m => simp [onError, h]
    | ok v =>
      cases hx : env.xhsO with
      | intr => simp [h]
      | exn m => simp [onError, h]
      | ok s => exact afterImage_mem env r _ e (by simp [h])

/-- C4: when the analysis collaborator reports the empty status on an
otherwise healthy run, the orchestrator sends the empty notification
(with the result's reason and today's date) when notification is
enabled, emits nothing else, exits with status 0, and writes no HTML
file; and this is the only conditional early exit — whenever the status
is not empty and the render step returns, the HTML write does happen. -/
theorem empty_analysis_early_exit (env : MainEnv) (nl : List NewsItem)
    (r : AnalysisResult) (reason : String)
    (hk : env.zhipuKeySet = true)
    (hf : env.fetchO = Outcome.ok nl) (hc : env.contentO = Outcome.ok ())
    (ha : env.analyzeO = Outcome.ok r) (hs : r.status = some "empty")
    (hr : r.reason = some reason) (he : env.sendEmptyO = Outcome.ok ()) :
    ((env.emailEnabled = true →
        (mainRun env).1 = [Event.sentEmpty (get_latest_available_date env.today) reason]) ∧
     (env.emailEnabled = false → (mainRun env).1 = []) ∧
     (mainRun env).2 = 0 ∧
     (∀ p : String, Event.wroteHtml p ∉ (mainRun env).1)) ∧
    (∀ (env2 : MainEnv) (nl2 : List NewsItem) (r2 : AnalysisResult) (path : String),
      env2.zhipuKeySet = true → env2.fetchO = Outcome.ok nl2 →
      env2.contentO = Outcome.ok () → env2.analyzeO = Outcome.ok r2 →
      r2.status ≠ some "empty" → env2.htmlO = Outcome.ok path →
      Event.wroteHtml path ∈ (mainRun env2).1) := by
  constructor
  · refine ⟨?_, ?_, ?_, ?_⟩
    · intro hmail
      simp [mainRun, hk, hf, hc, ha, hs, hr, he, hmail]
    · intro hmail
      simp [mainRun, hk, hf, hc, ha, hs, hr, he, hmail]
    · cases hmail : env.emailEnabled <;>
        simp [mainRun, hk, hf, hc, ha, hs, hr, he, hmail]
    · intro p
      cases hmail : env.emailEnabled <;>
        simp [mainRun, hk, hf, hc, ha, hs, hr, he, hmail]
  · intro env2 nl2 r2 path hk2 hf2 hc2 ha2 hs2 hh2
    have hrun : mainRun env2 = afterHtml env2 r2 [Event.wroteHtml path] := by
      simp [mainRun, hk2, hf2, hc2, ha2, hs2, hh2]
    rw [hrun]
    exact afterHtml_mem env2 r2 _ _ (by simp)

/-- Witness for `empty_analysis_early_exit` on a concrete empty-analysis
run: only the empty notification is emitted and the exit status is 0. -/
theorem empty_analysis_early_exit_witness :
    (mainRun envEmptyAnalysis).1 =
      [Event.sentEmpty (get_latest_available_date envEmptyAnalysis.today) "今日无内容"] ∧
    (mainRun envEmptyAnalysis).2 = 0 :=
  ⟨(empty_analysis_early_exit envEmptyAnalysis [] ⟨some "empty", some "今日无内容", 0⟩
      "今日无内容" rfl rfl rfl rfl rfl rfl rfl).1.1 rfl,
   (empty_analysis_early_exit envEmptyAnalysis [] ⟨some "empty", some "今日无内容", 0⟩
      "今日无内容" rfl rfl rfl rfl rfl rfl rfl).1.2.2.1⟩

/-- C9: the process exit status is 0 on a successful run (and on the
recognized empty-analysis stop), 1 when the required API key is missing
— checked before any work starts — and 1 when any step of the run
raises, and 130 when any step is interrupted by the user. -/
theorem exit_code_spec (env : MainEnv) (m path : String) (nl : List NewsItem)
    (r : AnalysisResult) (iop : Option String) (xp : String) :
    (env.zhipuKeySet = false → (mainRun env).2 = 1) ∧
    (env.zhipuKeySet = true → env.fetchO = Outcome.ok nl → env.contentO = Outcome.ok () →
      env.analyzeO = Outcome.ok r → r.status ≠ some "empty" → env.htmlO = Outcome.ok path →
      (env.imageEnabled = true → env.imageO = Outcome.ok iop) →
      (env.imageEnabled = true → env.xhsO = Outcome.ok xp) →
      (env.emailEnabled = true → env.sendSuccessO = Outcome.ok ()) →
      (mainRun env).2 = 0) ∧
    (env.zhipuKeySet = true → env.fetchO = Outcome.ok nl → env.contentO = Outcome.ok () →
      env.analyzeO = Outcome.ok r → r.status = some "empty" →
      (env.emailEnabled = true → env.sendEmptyO = Outcome.ok ()) →
      (mainRun env).2 = 0) ∧
    (env.zhipuKeySet = true → env.fetchO = Outcome.exn m → (mainRun env).2 = 1) ∧
    (env.zhipuKeySet = true → env.fetchO = Outcome.ok nl →
      env.contentO = Outcome.exn m → (mainRun env).2 = 1) ∧
    (env.zhipuKeySet = true → env.fetchO = Outcome.ok nl → env.contentO = Outcome.ok () →
      env.analyzeO = Outcome.exn m → (mainRun env).2 = 1) ∧
    (env.zhipuKeySet = true → env.fetchO = Outcome.ok nl → env.contentO = Outcome.ok () →
      env.analyzeO = Outcome.ok r → r.status ≠ some "empty" →
      env.htmlO = Outcome.exn m → (mainRun env).2 = 1) ∧
    (env.zhipuKeySet = true → env.fetchO = Outcome.ok nl → env.contentO = Outcome.ok () →
      env.analyzeO = Outcome.ok r → r.status = some "empty" → env.emailEnabled = true →
      env.sendEmptyO = Outcome.exn m → (mainRun env).2 = 1) ∧
    (env.zhipuKeySet = true → env.fetchO = Outcome.ok nl → env.contentO = Outcome.ok () →
      env.analyzeO = Outcome.ok r → r.status ≠ some "empty" → env.htmlO = Outcome.ok path →
      env.imageEnabled = true → env.imageO = Outcome.exn m → (mainRun env).2 = 1) ∧
    (env.zhipuKeySet = true → env.fetchO = Outcome.ok nl → env.contentO = Outcome.ok () →
      env.analyzeO = Outcome.ok r → r.status ≠ some "empty" → env.htmlO = Outcome.ok path →
      env.imageEnabled = true → env.imageO = Outcome.ok iop →
      env.xhsO = Outcome.exn m → (mainRun env).2 = 1) ∧
    (env.zhipuKeySet = true → env.fetchO = Outcome.ok nl → env.contentO = Outcome.ok () →
      env.analyzeO = Outcome.ok r → r.status ≠ some "empty" → env.htmlO = Outcome.ok path →
      (env.imageEnabled = true → env.imageO = Outcome.ok iop) →
      (env.imageEnabled = true → env.xhsO = Outcome.ok xp) →
      env.emailEnabled = true → env.sendSuccessO = Outcome.exn m → (mainRun env).2 = 1) ∧
    (env.zhipuKeySet = true → env.fetchO = Outcome.intr → (mainRun env).2 = 130) ∧
    (env.zhipuKeySet = true → env.fetchO = Outcome.ok nl →
      env.contentO = Outcome.intr → (mainRun env).2 = 130) ∧
    (env.zhipuKeySet = true → env.fetchO = Outcome.ok nl → env.contentO = Outcome.ok () →
      env.analyzeO = Outcome.intr → (mainRun env).2 = 130) ∧
    (env.zhipuKeySet = true → env.fetchO = Outcome.ok nl → env.contentO = Outcome.ok () →
      env.analyzeO = Outcome.ok r → r.status ≠ some "empty" →
      env.htmlO = Outcome.intr → (mainRun env).2 = 130) ∧
    (env.zhipuKeySet = true → env.fetchO = Outcome.ok nl → env.contentO = Outcome.ok () →
      env.analyzeO = Outcome.ok r → r.status = some "empty" → env.emailEnabled = true →
      env.sendEmptyO = Outcome.intr → (mainRun env).2 = 130) ∧
    (env.zhipuKeySet = true → env.fetchO = Outcome.ok nl → env.contentO = Outcome.ok () →
      env.analyzeO = Outcome.ok r → r.status ≠ some "empty" → env.htmlO = Outcome.ok path →
      env.imageEnabled = true → env.imageO = Outcome.intr → (mainRun env).2 = 130) ∧
    (env.zhipuKeySet = true → env.fetchO = Outcome.ok nl → env.contentO = Outcome.ok () →
      env.analyzeO = Outcome.ok r → r.status ≠ some "empty" → env.htmlO = Outcome.ok path →
      env.imageEnabled = true → env.imageO = Outcome.ok iop →
      env.xhsO = Outcome.intr → (mainRun env).2 = 130) ∧
    (env.zhipuKeySet = true → env.fetchO = Outcome.ok nl → env.contentO = Outcome.ok () →
      env.analyzeO = Outcome.ok r → r.status ≠ some "empty" → env.htmlO = Outcome.ok path →
      (env.imageEnabled = true → env.imageO = Outcome.ok iop) →
      (env.imageEnabled = true → env.xhsO = Outcome.ok xp) →
      env.emailEnabled = true → env.sendSuccessO = Outcome.intr → (mainRun env).2 = 130) := by
  refine ⟨?_, ?_, ?_, ?_, ?_, ?_, ?_, ?_, ?_, ?_, ?_, ?_, ?_, ?_, ?_, ?_, ?_, ?_, ?_⟩ <;>
    intros <;>
    cases hi : env.imageEnabled <;> cases hmail : env.emailEnabled <;>
      simp_all [mainRun, afterHtml, afterImage, onError]

/-- Witness for `exit_code_spec`: the all-successful concrete run exits
with status 0. -/
theorem exit_code_spec_witness : (mainRun envAllOk).2 = 0 :=
  (exit_code_spec envAllOk "m" "output/2024-06-01.html" [] ⟨none, none, 3⟩ none
      "xhs.png").2.1
    rfl rfl rfl rfl (by decide) rfl (fun _ => rfl) (fun _ => rfl) (fun _ => rfl)

/-- C10: when an unhandled exception escapes the run and notification is
configured, the error notification is dated with the deprecated helper
at its offset of 2 — two days before the current UTC date — which is
never the render date (the current UTC date) that the success and empty
notifications of the same run carry. -/
theorem error_notification_date_spec (env : MainEnv) (m : String) (nl : List NewsItem)
    (r : AnalysisResult) :
    get_target_date env.today 2 = env.today - 2 ∧
    env.today - 2 ≠ get_latest_available_date env.today ∧
    (env.zhipuKeySet = true → env.emailEnabled = true → env.fetchO = Outcome.exn m →
      Event.sentError (env.today - 2) m ∈ (mainRun env).1) ∧
    (env.zhipuKeySet = true → env.emailEnabled = true → env.fetchO = Outcome.ok nl →
      env.contentO = Outcome.ok () → env.analyzeO = Outcome.exn m →
      Event.sentError (env.today - 2) m ∈ (mainRun env).1) ∧
    (env.zhipuKeySet = true → env.emailEnabled = true → env.fetchO = Outcome.ok nl →
      env.contentO = Outcome.ok () → env.analyzeO = Outcome.ok r →
      r.status ≠ some "empty" → env.htmlO = Outcome.exn m →
      Event.sentError (env.today - 2) m ∈ (mainRun env).1) := by
  refine ⟨rfl, ?_, ?_, ?_, ?_⟩
  · unfold get_latest_available_date
    omega
  · intro hk hmail hf
    simp [mainRun, onError, get_target_date, hk, hmail, hf]
  · intro hk hmail hf hc ha
    simp [mainRun, onError, get_target_date, hk, hmail, hf, hc, ha]
  · intro hk hmail hf hc ha hs hh
    simp [mainRun, onError, get_target_date, hk, hmail, hf, hc, ha, hs, hh]

/-- Witness for `error_notification_date_spec` on a concrete failing
run: the error notification carries day `today - 2`, not the render
date. -/
theorem error_notification_date_spec_witness :
    Event.sentError (envFetchError.today - 2) "boom" ∈ (mainRun envFetchError).1 ∧
    envFetchError.today - 2 ≠ get_latest_available_date envFetchError.today :=
  ⟨(error_notification_date_spec envFetchError "boom" [] ⟨none, none, 0⟩).2.2.1
      rfl rfl rfl,
   (error_notification_date_spec envFetchError "boom" [] ⟨none, none, 0⟩).2.1⟩

/-- Witness for `extract_tags_from_title_spec` at a concrete title: the
matching labels appear in table order and the fallback never fires. -/
theorem extract_tags_from_title_spec_witness :
    extract_tags_from_title "OpenAI 发布新模型" = ["OpenAI", "AI", "模型"] ∧
    (extract_tags_from_title "OpenAI 发布新模型").length ≤ 4 ∧
    extract_tags_from_title "OpenAI 发布新模型" ≠ [] :=
  ⟨by decide, (extract_tags_from_title_spec "OpenAI 发布新模型").2.1,
   (extract_tags_from_title_spec "OpenAI 发布新模型").2.2⟩

/-- Witness for `render_deterministic_mod_timestamp` at concrete inputs. -/
theorem render_deterministic_mod_timestamp_witness :
    (∀ ts1 ts2 : String,
      generate_simple_html "out" [] "2024-06-01" ts1 =
      generate_simple_html "out" [] "2024-06-01" ts2) ∨
    (∃ pre post idxc : String, ∀ now_ts : String,
      generate_simple_html "out" [] "2024-06-01" now_ts =
        ([("out" ++ "/css/styles.css", cssContent),
          ("out" ++ "/" ++ "2024-06-01" ++ ".html", pre ++ now_ts ++ post),
          ("out" ++ "/index.html", idxc)],
         some ("out" ++ "/" ++ "2024-06-01" ++ ".html"))) :=
  render_deterministic_mod_timestamp "out" [] "2024-06-01"

/-- Witness for `update_index_spec` at concrete inputs: the fixed index
path and the zero-delay redirect to the dated page. -/
theorem update_index_spec_witness :
    (update_index "out" "2024-06-01" "2024年6月1日 星期六").1 = "out" ++ "/index.html" ∧
    (∃ a b : String, (update_index "out" "2024-06-01" "2024年6月1日 星期六").2 =
      a ++ ("<meta http-equiv=\"refresh\" content=\"0;url=" ++ "2024-06-01" ++ ".html\">") ++ b) :=
  ⟨(update_index_spec "out" "2024-06-01" "2024年6月1日 星期六").1,
   (update_index_spec "out" "2024-06-01" "2024年6月1日 星期六").2.1⟩

end AIDaily
